import Mathlib

set_option autoImplicit false

/-!
Verification of the interaction-routing core of `miru`
(src/miru/events.py and src/miru/view.py), as a shallow embedding.

Registry dictionaries become functions into `Option`; handlers are
identified by natural numbers (Python object identity); calls to the
external effect `ItemHandler.stop()` are counted per handler; Python
exceptions become `Except` error values.
-/

namespace Miru

/-- Routing keys held by `EventManager.reg`: either a component custom_id
(a string) or a message id (an integer snowflake). The Python dict mixes
both kinds of key. -/
inductive Key where
  | str (s : String)
  | msg (id : Nat)
deriving DecidableEq

/-- Handlers are compared by object identity in the Python dicts; we model
them as natural numbers. -/
abbrev Handler := Nat

/-- Shallow embedding of `miru.events.EventManager`: `reg` is the dict from
routing key to owning handler, `item_handlers` the dict from handler to the
key list recorded by its most recent `add` call, and `stops` counts how many
times each handler's `stop()` method has been invoked by `add`. -/
structure EventManager where
  reg : Key → Option Handler
  item_handlers : Handler → Option (List Key)
  stops : Handler → Nat

/-- The state built by `EventManager.__init__`: both dicts empty, no
handler stopped yet. -/
def emEmpty : EventManager :=
  { reg := fun _ => none, item_handlers := fun _ => none, stops := fun _ => 0 }

/-- One iteration of the loop in `EventManager.add`: if the key has a
current owner that owner is stopped, then the key is assigned to
`item_handler`. -/
def EventManager.addKey (m : EventManager) (item_handler : Handler) (custom_id : Key) :
    EventManager :=
  let m1 :=
    match m.reg custom_id with
    | some h => { m with stops := fun g => if g = h then m.stops g + 1 else m.stops g }
    | none => m
  { m1 with reg := fun k => if k = custom_id then some item_handler else m1.reg k }

/-- Shallow embedding of `EventManager.add`: loop over the keys, then record
the key list for the handler (overwriting any previously recorded list). -/
def EventManager.add (m : EventManager) (item_handler : Handler) (custom_ids : List Key) :
    EventManager :=
  let m1 := custom_ids.foldl (fun acc k => acc.addKey item_handler k) m
  { m1 with
    item_handlers := fun g =>
      if g = item_handler then some custom_ids else m1.item_handlers g }

/-- Embedding of `self.reg.pop(custom_id, None)`: delete a key from `reg`,
silently succeeding when it is absent. -/
def EventManager.delKey (m : EventManager) (custom_id : Key) : EventManager :=
  { m with reg := fun k => if k = custom_id then none else m.reg k }

/-- Shallow embedding of `EventManager.pop`. The subscript access
`self.item_handlers[item_handler]` raises `KeyError` when the handler is not
a key of that dict; that is the `.error` branch. Otherwise every recorded
key is deleted from `reg` and the handler's entry is removed. -/
def EventManager.pop (m : EventManager) (item_handler : Handler) :
    Except String EventManager :=
  match m.item_handlers item_handler with
  | none => .error "KeyError"
  | some keys =>
    let m1 := keys.foldl (fun acc k => acc.delKey k) m
    .ok { m1 with
          item_handlers := fun g =>
            if g = item_handler then none else m1.item_handlers g }

/-- Shallow embedding of `EventManager.get`: a pure read of `reg`. -/
def EventManager.get (m : EventManager) (custom_id : Key) : Option Handler :=
  m.reg custom_id

/-- A sequence of single-key `EventManager.add` calls that all register
under the shared key `k`. -/
def addSeq (m : EventManager) (hs : List Handler) (k : Key) : EventManager :=
  hs.foldl (fun acc h => acc.add h [k]) m

/-- The state after `EventManager.pop` when it succeeds, the unchanged state
when it raises. -/
def popD (m : EventManager) (item_handler : Handler) : EventManager :=
  match m.pop item_handler with
  | .ok m1 => m1
  | .error _ => m

/-- The kind of an inbound interaction: the `isinstance` checks in
`on_inter` and `View._process_interactions` distinguish
`hikari.ComponentInteraction`, `hikari.ModalInteraction` and everything
else. -/
inductive InterKind where
  | component
  | modal
  | other
deriving DecidableEq

/-- The fields of an inbound interaction that the routing core reads: its
kind, its component custom_id, and the id of the message it was issued
against (`None` when the interaction carries no message). -/
structure Interaction where
  kind : InterKind
  custom_id : String
  message_id : Option Nat
deriving DecidableEq

/-- A view item as the routing core sees it: every child of a `View` is a
`ViewItem` (enforced by `View.add_item`) carrying a component custom_id and
the `_persistent` flag. -/
structure VItem where
  custom_id : String
  persistent : Bool
deriving DecidableEq

/-- Shallow embedding of `ViewContext`: the value object pairing the view
with the interaction it is processing. -/
structure ViewContext where
  interaction : Interaction
deriving DecidableEq

/-- The mutable state of a `View` that the claims mention: its ordered item
collection, timeout, autodefer flag, last received context and the
`_inputted` event flag. -/
structure ViewState where
  children : List VItem
  timeout : Option ℚ
  autodefer : Bool
  last_context : Option ViewContext
  inputted : Bool
deriving DecidableEq

/-- Shallow embedding of the `View.is_persistent` property: the timeout is
unset and every child is a `ViewItem` whose `_persistent` flag is set
(children are always `ViewItem`s, so the `isinstance` conjunct reduces to
the flag). -/
def ViewState.is_persistent (v : ViewState) : Bool :=
  v.timeout.isNone && v.children.all (fun it => it.persistent)

/-- The outcome of running an item's user-written callback: either it
returns after `elapsed` seconds leaving the interaction's
`_issued_response` flag equal to `issued`, or it raises exception `e`
(exceptions are identified by numbers). -/
inductive CallbackOutcome where
  | ok (issued : Bool) (elapsed : ℚ)
  | raises (e : Nat)
deriving DecidableEq

/-- One invocation of `View.on_error`: the exception together with the item
and the context it was reported with. -/
structure ErrorReport where
  error : Nat
  item : Nat
  context : Nat
deriving DecidableEq

/-- The observable result of one `_handle_callback` task: whether
`context.defer()` ran, the `on_error` invocations, any exception escaping
the task boundary, and whether the `_inputted` flag was pulsed. -/
structure HandleCallbackResult where
  deferred : Bool
  on_error_calls : List ErrorReport
  raised : Option Nat
  inputted_signalled : Bool
deriving DecidableEq

/-- Body of the `try` block of `View._handle_callback`: refresh the item
(which may raise), run the callback (which may raise), then issue the
implicit deferred reply exactly when no response has been issued, the
view's `autodefer` flag is set, and at most 3 seconds elapsed since the
start timestamp; the `defer` call itself may raise. Returns whether a
deferred reply was issued, or the first exception raised. -/
def handleCallbackBody (autodefer : Bool) (refresh : Option Nat)
    (callback : CallbackOutcome) (deferRaises : Option Nat) : Except Nat Bool :=
  match refresh with
  | some e => .error e
  | none =>
    match callback with
    | .raises e => .error e
    | .ok issued elapsed =>
      if !issued && autodefer then
        if elapsed ≤ 3 then
          match deferRaises with
          | some e => .error e
          | none => .ok true
        else .ok false
      else .ok false

/-- Shallow embedding of `View._handle_callback`: run the body and catch any
exception at the task boundary, routing it to
`on_error(error, item, context)`; nothing ever propagates out. -/
def handleCallback (autodefer : Bool) (item context : Nat) (refresh : Option Nat)
    (callback : CallbackOutcome) (deferRaises : Option Nat) : HandleCallbackResult :=
  match handleCallbackBody autodefer refresh callback deferRaises with
  | .ok d =>
    { deferred := d, on_error_calls := [], raised := none, inputted_signalled := true }
  | .error e =>
    { deferred := false, on_error_calls := [⟨e, item, context⟩], raised := none,
      inputted_signalled := true }

/-- The `_handle_callback` task at the view level: the only view mutation is
setting then immediately clearing `_inputted`; the rest of the view state
passes through untouched. -/
def handleCallbackView (v : ViewState) (item context : Nat) (refresh : Option Nat)
    (callback : CallbackOutcome) (deferRaises : Option Nat) :
    ViewState × HandleCallbackResult :=
  ({ v with inputted := false },
   handleCallback v.autodefer item context refresh callback deferRaises)

/-- Shallow embedding of `View._process_interactions`. `check` is the value
returned by the overridable `view_check`; the returned list holds the
`(item, context)` pairs for which `_handle_callback` tasks are spawned. -/
def processInteractions (v : ViewState) (inter : Interaction) (check : Bool) :
    ViewState × List (VItem × ViewContext) :=
  if inter.kind = InterKind.component then
    let items := v.children.filter (fun it => it.custom_id == inter.custom_id)
    if items.length > 0 then
      let context : ViewContext := ⟨inter⟩
      let v1 := { v with last_context := some context }
      if check then (v1, items.map (fun it => (it, context)))
      else (v1, [])
    else (v, [])
  else (v, [])

/-- Python exceptions raised by the view's property and startup code. -/
inductive PyError where
  | valueError (msg : String)
  | attributeError (attr : String)
  | assertionError
deriving DecidableEq

/-- The attribute names defined on `EventManager` in src/miru/events.py;
attribute lookup on `_events` succeeds only for these. -/
def eventManagerMethods : List String := ["__init__", "add", "pop", "get"]

/-- Shallow embedding of `View.start_listener`: raises `ValueError` on a
non-persistent view; otherwise evaluates `_events.subscribe(self,
*custom_ids)`, an attribute lookup that raises `AttributeError` because
`EventManager` defines no `subscribe` method (its registration method is
named `add`); were the attribute present, every child's custom_id would be
registered. -/
def start_listener (m : EventManager) (viewId : Handler) (v : ViewState) :
    Except PyError EventManager :=
  if v.is_persistent = false then
    .error (.valueError "This can only be used on persistent views.")
  else if "subscribe" ∈ eventManagerMethods then
    .ok (m.add viewId (v.children.map (fun it => Key.str it.custom_id)))
  else
    .error (.attributeError "subscribe")

/-- Shallow embedding of `on_inter` (src/miru/events.py): returns the
handler the event is dispatched to, or `none` when the event is dropped.
Non-component, non-modal interactions are dropped; interactions without a
message are dropped; otherwise the custom_id is looked up first, then the
message id. -/
def on_inter (m : EventManager) (inter : Interaction) : Option Handler :=
  if inter.kind = InterKind.component ∨ inter.kind = InterKind.modal then
    match inter.message_id with
    | none => none
    | some mid =>
      (m.get (Key.str inter.custom_id)).orElse (fun _ => m.get (Key.msg mid))
  else
    none

/-- Modelled from the spec (dispatcher section): the routing rule as the
claim states it, with no message-presence requirement: accepted kinds
resolve the component identifier first and fall back to the message id only
when the component identifier is absent or unmatched. -/
def specRouting (m : EventManager) (inter : Interaction) : Option Handler :=
  if inter.kind = InterKind.component ∨ inter.kind = InterKind.modal then
    (m.get (Key.str inter.custom_id)).orElse
      (fun _ => inter.message_id.bind (fun mid => m.get (Key.msg mid)))
  else
    none

/-- Shallow embedding of the `View.last_context` property:
`assert isinstance(self._last_context, ViewContext)` fails with
`AssertionError` while the underlying field is still `None`. -/
def lastContextProperty (v : ViewState) : Except PyError ViewContext :=
  match v.last_context with
  | none => .error .assertionError
  | some c => .ok c

/-- The view state produced by `View.__init__` with default arguments: the
default timeout of 120 seconds, autodefer on, no children yet, no context
received, input flag clear. -/
def viewInit : ViewState :=
  { children := [], timeout := some 120, autodefer := true,
    last_context := none, inputted := false }

end Miru

namespace Miru

/-! Helper lemmas about the registry operations. -/

theorem addKey_reg (m : EventManager) (h : Handler) (k j : Key) :
    (m.addKey h k).reg j = if j = k then some h else m.reg j := by
  unfold EventManager.addKey
  cases hm : m.reg k <;> rfl

theorem addKey_stops_hit (m : EventManager) (h : Handler) (k : Key) (hPrev : Handler)
    (hm : m.reg k = some hPrev) (g : Handler) :
    (m.addKey h k).stops g = if g = hPrev then m.stops g + 1 else m.stops g := by
  unfold EventManager.addKey
  rw [hm]

theorem addKey_stops_miss (m : EventManager) (h : Handler) (k : Key)
    (hm : m.reg k = none) (g : Handler) :
    (m.addKey h k).stops g = m.stops g := by
  unfold EventManager.addKey
  rw [hm]

theorem add_single_reg (m : EventManager) (h : Handler) (k j : Key) :
    (m.add h [k]).reg j = if j = k then some h else m.reg j :=
  addKey_reg m h k j

theorem add_single_stops (m : EventManager) (h : Handler) (k : Key) (g : Handler) :
    (m.add h [k]).stops g = (m.addKey h k).stops g := rfl

theorem delKey_reg (m : EventManager) (a k : Key) :
    (m.delKey a).reg k = if k = a then none else m.reg k := rfl

theorem foldl_delKey_none (ks : List Key) (m : EventManager) (k : Key)
    (hm : m.reg k = none) :
    (ks.foldl (fun acc j => acc.delKey j) m).reg k = none := by
  induction ks generalizing m with
  | nil => exact hm
  | cons a as ih =>
    apply ih
    rw [delKey_reg]
    split
    · rfl
    · exact hm

theorem foldl_delKey_mem (ks : List Key) (m : EventManager) (k : Key)
    (hk : k ∈ ks) :
    (ks.foldl (fun acc j => acc.delKey j) m).reg k = none := by
  induction ks generalizing m with
  | nil => cases hk
  | cons a as ih =>
    by_cases h : k ∈ as
    · exact ih (m.delKey a) h
    · have hka : k = a := by
        rcases List.mem_cons.mp hk with h1 | h2
        · exact h1
        · exact absurd h2 h
      show (as.foldl (fun acc j => acc.delKey j) (m.delKey a)).reg k = none
      apply foldl_delKey_none
      rw [delKey_reg]
      simp [hka]

/-- C1: for every sequence of `add` calls sharing a key, a lookup of that key
returns the handler of the most recent call, and at each step the previous
owner of the key (when there is one) has its `stop()` invoked exactly once,
with no other handler stopped. -/
theorem registry_shared_key_last_add_wins (m : EventManager) (hs : List Handler)
    (h : Handler) (k : Key) :
    ((addSeq m (hs ++ [h]) k).get k = some h) ∧
    (∀ hPrev, m.reg k = some hPrev →
      ((m.add h [k]).stops hPrev = m.stops hPrev + 1 ∧
        ∀ g, g ≠ hPrev → (m.add h [k]).stops g = m.stops g)) ∧
    (m.reg k = none → ∀ g, (m.add h [k]).stops g = m.stops g) := by
  refine ⟨?_, ?_, ?_⟩
  · unfold addSeq EventManager.get
    rw [List.foldl_append]
    simp only [List.foldl_cons, List.foldl_nil]
    rw [add_single_reg]
    simp
  · intro hPrev hm
    constructor
    · rw [add_single_stops, addKey_stops_hit m h k hPrev hm]
      simp
    · intro g hg
      rw [add_single_stops, addKey_stops_hit m h k hPrev hm]
      simp [hg]
  · intro hm g
    rw [add_single_stops, addKey_stops_miss m h k hm]

/-- Witness for C1 at a concrete sequence: `add 1 [k]` then `add 2 [k]`. -/
theorem registry_shared_key_last_add_wins_witness :
    ((addSeq emEmpty [1, 2] (Key.str "a")).get (Key.str "a") = some 2) ∧
    ((emEmpty.add 1 [Key.str "a"]).add 2 [Key.str "a"]).stops 1 =
      (emEmpty.add 1 [Key.str "a"]).stops 1 + 1 :=
  ⟨(registry_shared_key_last_add_wins emEmpty [1] 2 (Key.str "a")).1,
   ((registry_shared_key_last_add_wins (emEmpty.add 1 [Key.str "a"]) [] 2
      (Key.str "a")).2.1 1 (by decide)).1⟩

/-- C2 counterexample: calling `EventManager.pop` on a handler that was
never registered raises `KeyError` instead of completing silently, because
`self.item_handlers[item_handler]` is a bare subscript access. -/
theorem registry_pop_unregistered_raises :
    emEmpty.pop 0 = Except.error "KeyError" := rfl

/-- C2 amended: `pop` raises `KeyError` exactly when the handler has no
entry in `item_handlers`; on a registered handler it completes normally. -/
theorem registry_pop_error_behavior (m : EventManager) (h : Handler) :
    (m.item_handlers h = none → m.pop h = Except.error "KeyError") ∧
    (∀ ks, m.item_handlers h = some ks → ∃ m1, m.pop h = Except.ok m1) := by
  constructor
  · intro hm
    unfold EventManager.pop
    rw [hm]
  · intro ks hm
    unfold EventManager.pop
    rw [hm]
    exact ⟨_, rfl⟩

/-- Witness for C2 amended: `pop` raises on the empty registry and
completes after a matching `add`. -/
theorem registry_pop_error_behavior_witness :
    emEmpty.pop 3 = Except.error "KeyError" ∧
    ∃ m1, (emEmpty.add 1 [Key.str "a"]).pop 1 = Except.ok m1 :=
  ⟨(registry_pop_error_behavior emEmpty 3).1 rfl,
   (registry_pop_error_behavior (emEmpty.add 1 [Key.str "a"]) 1).2 [Key.str "a"] rfl⟩

/-- C3 counterexample: after `add 7 ["a"]` then `add 7 ["b"]`, removing
handler 7 leaves the key `"a"` from the earlier call still mapped to 7,
because `add` overwrites the recorded key set instead of accumulating it. -/
theorem registry_pop_misses_earlier_key :
    (popD ((emEmpty.add 7 [Key.str "a"]).add 7 [Key.str "b"]) 7).get
      (Key.str "a") = some 7 := rfl

/-- C3 amended: after a successful `pop`, every key recorded by the
handler's most recent `add` call no longer resolves; keys registered by
earlier `add` calls for the same handler are not tracked and may
survive. -/
theorem registry_pop_purges_last_recorded_keys (m : EventManager) (h : Handler)
    (ks : List Key) (hm : m.item_handlers h = some ks) :
    ∀ k ∈ ks, (popD m h).get k = none := by
  intro k hk
  show (popD m h).reg k = none
  unfold popD EventManager.pop
  rw [hm]
  exact foldl_delKey_mem ks m k hk

/-- Witness for C3 amended at a two-key registration. -/
theorem registry_pop_purges_last_recorded_keys_witness :
    (popD (emEmpty.add 3 [Key.str "a", Key.str "b"]) 3).get (Key.str "a") = none :=
  registry_pop_purges_last_recorded_keys (emEmpty.add 3 [Key.str "a", Key.str "b"]) 3
    [Key.str "a", Key.str "b"] rfl (Key.str "a") (by decide)

/-- C4: in a task whose refresh and callback complete without raising, the
implicit deferred reply is issued iff no response was issued on the
interaction, the view's autodefer flag is on, and at most 3 seconds elapsed
since the task's start timestamp; a callback that takes 5 seconds and
issues nothing yields no reply at all. -/
theorem autodefer_fires_iff (autodefer : Bool) (item context : Nat)
    (issued : Bool) (elapsed : ℚ) :
    ((handleCallback autodefer item context none (.ok issued elapsed) none).deferred = true ↔
      (issued = false ∧ autodefer = true ∧ elapsed ≤ 3)) ∧
    (handleCallback true item context none (.ok false 5) none).deferred = false ∧
    (handleCallback true item context none (.ok false 5) none).on_error_calls = [] := by
  refine ⟨?_, ?_, ?_⟩
  · cases issued <;> cases autodefer <;>
      by_cases h3 : elapsed ≤ 3 <;>
      simp [handleCallback, handleCallbackBody, h3]
  · have h5 : ¬ ((5 : ℚ) ≤ 3) := by norm_num
    simp [handleCallback, handleCallbackBody, h5]
  · have h5 : ¬ ((5 : ℚ) ≤ 3) := by norm_num
    simp [handleCallback, handleCallbackBody, h5]

/-- Helper: no exception ever escapes `_handle_callback`. -/
theorem handleCallback_raised_none (autodefer : Bool) (item context : Nat)
    (refresh : Option Nat) (callback : CallbackOutcome) (deferRaises : Option Nat) :
    (handleCallback autodefer item context refresh callback deferRaises).raised = none := by
  unfold handleCallback
  cases handleCallbackBody autodefer refresh callback deferRaises <;> rfl

/-- Helper: on an exception the error hook is invoked exactly once with the
matching item and context. -/
theorem handleCallback_reports_error (autodefer : Bool) (item context : Nat)
    (refresh : Option Nat) (callback : CallbackOutcome) (deferRaises : Option Nat)
    (e : Nat) (hb : handleCallbackBody autodefer refresh callback deferRaises = .error e) :
    (handleCallback autodefer item context refresh callback deferRaises).on_error_calls =
      [⟨e, item, context⟩] := by
  unfold handleCallback
  rw [hb]

/-- Helper: on normal completion the error hook is not invoked. -/
theorem handleCallback_no_report (autodefer : Bool) (item context : Nat)
    (refresh : Option Nat) (callback : CallbackOutcome) (deferRaises : Option Nat)
    (d : Bool) (hb : handleCallbackBody autodefer refresh callback deferRaises = .ok d) :
    (handleCallback autodefer item context refresh callback deferRaises).on_error_calls =
      [] := by
  unfold handleCallback
  rw [hb]

/-- Helper: a component interaction matching some child spawns at least one
callback task. -/
theorem processInteractions_spawns (v : ViewState) (inter : Interaction)
    (hkind : inter.kind = InterKind.component)
    (it : VItem) (hit : it ∈ v.children) (heq : it.custom_id = inter.custom_id) :
    (processInteractions v inter true).2 ≠ [] := by
  have hfil : it ∈ v.children.filter (fun x => x.custom_id == inter.custom_id) :=
    List.mem_filter.mpr ⟨hit, by simp [heq]⟩
  have hne : v.children.filter (fun x => x.custom_id == inter.custom_id) ≠ [] :=
    List.ne_nil_of_mem hfil
  have hlen : 0 < (v.children.filter (fun x => x.custom_id == inter.custom_id)).length :=
    List.length_pos.mpr hne
  simp [processInteractions, hkind, hlen, hne]

/-- C5: every exception raised inside a `_handle_callback` task is caught at
the task boundary and reported to `on_error` exactly once with the matching
item and context; nothing propagates out of the task; the view state is
untouched apart from the `_inputted` pulse, so a later dispatch of a
matching event to the same view still spawns its callback task. -/
theorem callback_errors_contained (v : ViewState) (item context : Nat)
    (refresh : Option Nat) (callback : CallbackOutcome) (deferRaises : Option Nat) :
    (handleCallback v.autodefer item context refresh callback deferRaises).raised = none ∧
    (∀ e, handleCallbackBody v.autodefer refresh callback deferRaises = .error e →
      (handleCallback v.autodefer item context refresh callback deferRaises).on_error_calls =
        [⟨e, item, context⟩]) ∧
    (∀ d, handleCallbackBody v.autodefer refresh callback deferRaises = .ok d →
      (handleCallback v.autodefer item context refresh callback deferRaises).on_error_calls =
        []) ∧
    ((handleCallbackView v item context refresh callback deferRaises).1.children =
        v.children ∧
      (handleCallbackView v item context refresh callback deferRaises).1.last_context =
        v.last_context) ∧
    (∀ inter, inter.kind = InterKind.component →
      (∃ it ∈ v.children, it.custom_id = inter.custom_id) →
      (processInteractions (handleCallbackView v item context refresh callback deferRaises).1
          inter true).2 ≠ []) := by
  refine ⟨handleCallback_raised_none _ _ _ _ _ _, ?_, ?_, ⟨rfl, rfl⟩, ?_⟩
  · intro e hb
    exact handleCallback_reports_error v.autodefer item context refresh callback deferRaises e hb
  · intro d hb
    exact handleCallback_no_report v.autodefer item context refresh callback deferRaises d hb
  · intro inter hkind hmatch
    obtain ⟨it, hit, heq⟩ := hmatch
    exact processInteractions_spawns _ inter hkind it hit heq

/-- Witness for C5: a callback raising exception 13 is reported once with
its item and context and nothing escapes the task. -/
theorem callback_errors_contained_witness :
    (handleCallback viewInit.autodefer 4 9 none (.raises 13) none).raised = none ∧
    (handleCallback viewInit.autodefer 4 9 none (.raises 13) none).on_error_calls =
      [⟨13, 4, 9⟩] :=
  ⟨(callback_errors_contained viewInit 4 9 none (.raises 13) none).1,
   (callback_errors_contained viewInit 4 9 none (.raises 13) none).2.1 13 rfl⟩

/-- C6: a view is persistent iff its timeout is unset and every child
declares itself persistence-capable; any single non-persistent child makes
it non-persistent even with the timeout unset. -/
theorem is_persistent_iff (v : ViewState) :
    (v.is_persistent = true ↔
      (v.timeout = none ∧ ∀ it ∈ v.children, it.persistent = true)) ∧
    (∀ it ∈ v.children, it.persistent = false → v.is_persistent = false) := by
  constructor
  · simp [ViewState.is_persistent, List.all_eq_true, Option.isNone_iff_eq_none]
  · intro it hit hp
    have hall : v.children.all (fun x => x.persistent) = false := by
      rw [List.all_eq_false]
      exact ⟨it, hit, by simp [hp]⟩
    simp [ViewState.is_persistent, hall]

/-- Witness for C6: one persistent child with no timeout gives a persistent
view; adding a non-persistent child breaks persistence. -/
theorem is_persistent_iff_witness :
    (ViewState.is_persistent
      { children := [⟨"x", true⟩], timeout := none, autodefer := true,
        last_context := none, inputted := false } = true) ∧
    (ViewState.is_persistent
      { children := [⟨"x", true⟩, ⟨"y", false⟩], timeout := none, autodefer := true,
        last_context := none, inputted := false } = false) :=
  ⟨(is_persistent_iff _).1.mpr ⟨rfl, by decide⟩,
   (is_persistent_iff _).2 ⟨"y", false⟩ (by decide) rfl⟩

/-- C7: `start_listener` raises `ValueError` on a non-persistent view, and
on a persistent view it raises `AttributeError` because it invokes
`_events.subscribe`, a method `EventManager` does not define; no key is
ever registered. -/
theorem start_listener_reports (m : EventManager) (viewId : Handler) (v : ViewState) :
    (v.is_persistent = false →
      start_listener m viewId v =
        Except.error (PyError.valueError "This can only be used on persistent views.")) ∧
    (v.is_persistent = true →
      start_listener m viewId v = Except.error (PyError.attributeError "subscribe")) := by
  constructor
  · intro hp
    unfold start_listener
    rw [if_pos hp]
  · intro hp
    unfold start_listener
    rw [hp, if_neg (by decide : ¬ (true = false)),
      if_neg (by decide : ¬ ("subscribe" ∈ eventManagerMethods))]

/-- Witness for C7: concrete non-persistent and persistent views. -/
theorem start_listener_reports_witness :
    (start_listener emEmpty 0
        { children := [⟨"x", false⟩], timeout := none, autodefer := true,
          last_context := none, inputted := false } =
      Except.error (PyError.valueError "This can only be used on persistent views.")) ∧
    (start_listener emEmpty 0
        { children := [⟨"x", true⟩], timeout := none, autodefer := true,
          last_context := none, inputted := false } =
      Except.error (PyError.attributeError "subscribe")) :=
  ⟨(start_listener_reports emEmpty 0 _).1 rfl,
   (start_listener_reports emEmpty 0 _).2 rfl⟩

/-- C8 counterexample: a modal interaction carrying no message is dropped by
`on_inter` even though its custom_id is registered, while the claimed
custom_id-first routing rule would dispatch it. -/
theorem on_inter_drops_messageless_interaction :
    on_inter (emEmpty.add 7 [Key.str "a"]) ⟨InterKind.modal, "a", none⟩ = none ∧
    specRouting (emEmpty.add 7 [Key.str "a"]) ⟨InterKind.modal, "a", none⟩ = some 7 :=
  ⟨rfl, rfl⟩

/-- C8 amended: `on_inter` accepts only component and modal interactions
that carry a message; an interaction without a message is dropped even when
its custom_id is registered; otherwise the custom_id is resolved first, the
message id is the fallback, and an event matching neither is dropped
silently. -/
theorem on_inter_routing (m : EventManager) (inter : Interaction) :
    (inter.kind = InterKind.other → on_inter m inter = none) ∧
    (inter.message_id = none → on_inter m inter = none) ∧
    (∀ mid h, inter.message_id = some mid →
      (inter.kind = InterKind.component ∨ inter.kind = InterKind.modal) →
      m.get (Key.str inter.custom_id) = some h → on_inter m inter = some h) ∧
    (∀ mid, inter.message_id = some mid →
      (inter.kind = InterKind.component ∨ inter.kind = InterKind.modal) →
      m.get (Key.str inter.custom_id) = none → on_inter m inter = m.get (Key.msg mid)) := by
  refine ⟨?_, ?_, ?_, ?_⟩
  · intro hk
    unfold on_inter
    rw [hk,
      if_neg (by decide : ¬ (InterKind.other = InterKind.component ∨
        InterKind.other = InterKind.modal))]
  · intro hm
    unfold on_inter
    by_cases hk : inter.kind = InterKind.component ∨ inter.kind = InterKind.modal
    · rw [if_pos hk, hm]
    · rw [if_neg hk]
  · intro mid h hmsg hkind hget
    unfold on_inter
    rw [if_pos hkind, hmsg, hget]
    rfl
  · intro mid hmsg hkind hget
    unfold on_inter
    rw [if_pos hkind, hmsg, hget]
    rfl

/-- Witness for C8 amended: custom_id hit, message-id fallback, foreign
kind, and missing message, each on a concrete registry. -/
theorem on_inter_routing_witness :
    on_inter (emEmpty.add 7 [Key.str "a"]) ⟨InterKind.component, "a", some 5⟩ = some 7 ∧
    on_inter (emEmpty.add 7 [Key.msg 5]) ⟨InterKind.component, "b", some 5⟩ = some 7 ∧
    on_inter emEmpty ⟨InterKind.other, "a", some 5⟩ = none ∧
    on_inter emEmpty ⟨InterKind.modal, "a", none⟩ = none :=
  ⟨(on_inter_routing (emEmpty.add 7 [Key.str "a"]) _).2.2.1 5 7 rfl (Or.inl rfl) rfl,
   ((on_inter_routing (emEmpty.add 7 [Key.msg 5]) _).2.2.2 5 rfl (Or.inl rfl) rfl).trans rfl,
   (on_inter_routing emEmpty _).1 rfl,
   (on_inter_routing emEmpty _).2.1 rfl⟩

/-- C9: dispatching a component interaction whose custom_id matches no child
leaves the view state (last context, input flag, item collection) unchanged
and spawns no callback task; non-component interactions likewise. -/
theorem no_matching_item_no_effect (v : ViewState) (inter : Interaction) (check : Bool)
    (hnone : ∀ it ∈ v.children, it.custom_id ≠ inter.custom_id) :
    processInteractions v inter check = (v, []) := by
  unfold processInteractions
  by_cases hk : inter.kind = InterKind.component
  · rw [if_pos hk]
    have hfil : v.children.filter (fun it => it.custom_id == inter.custom_id) = [] := by
      rw [List.filter_eq_nil_iff]
      intro it hit
      simp [hnone it hit]
    simp [hfil]
  · rw [if_neg hk]

/-- Witness for C9: an interaction aimed at custom_id `"z"` against a view
owning only `"x"`. -/
theorem no_matching_item_no_effect_witness :
    processInteractions
      { children := [⟨"x", true⟩], timeout := some 120, autodefer := true,
        last_context := none, inputted := false }
      ⟨InterKind.component, "z", none⟩ true =
    ({ children := [⟨"x", true⟩], timeout := some 120, autodefer := true,
        last_context := none, inputted := false }, []) :=
  no_matching_item_no_effect _ _ true (by decide)

/-- C10: reading the `last_context` property while the underlying field is
still `None` fails the `isinstance` assertion instead of returning the
`None` value. -/
theorem last_context_asserts_on_none (v : ViewState)
    (h : v.last_context = none) :
    lastContextProperty v = Except.error PyError.assertionError := by
  unfold lastContextProperty
  rw [h]

/-- Witness for C10: the freshly constructed view. -/
theorem last_context_asserts_on_none_witness :
    lastContextProperty viewInit = Except.error PyError.assertionError :=
  last_context_asserts_on_none viewInit rfl

end Miru
